import Mathlib

/-!
Verification of the ZKOM worker-node client (Rust) against its design
specification.  The Rust sources are shallowly embedded: pure functions
become Lean functions, HTTP / stream effects become explicit environment
parameters (one outcome per external call), and machine integers are
modelled as `Nat` / `Int` with explicit wrapping where u64 overflow can
occur.  Sections follow the source files:
  * JSON values and parsing (models `serde_json::Value` / `from_slice`)
  * base64url decoding (models `base64` `URL_SAFE_NO_PAD` decoding)
  * `src/device/mod.rs`: `DeviceError`, `verify_device`,
    `get_token_expiry`, `should_refresh_token`
  * `src/main.rs`: the registration verification polling loop
  * `src/stable_diffusion/mod.rs`: `text_to_image` retry loop
  * `src/task/mod.rs`: `process_task`, the message-handling step and the
    reconnection logic of `start_processing`
  * `src/config/mod.rs`: `NodeConfig` and the `ConfigManager` setters
-/

namespace Zkom

/-! ## JSON values (model of `serde_json::Value`)

Integers inside the i64/u64 ranges are stored as `intNum`; any number with
a fraction or exponent part, or an integer outside those ranges, is stored
as `floatNum` (serde_json stores those as f64, on which `as_u64` fails, so
the float's value need not be tracked).  Strings are kept as raw byte
lists. -/

inductive Json where
  | null
  | bool (b : Bool)
  | intNum (n : Int)
  | floatNum
  | str (bytes : List Nat)
  | arr (xs : List Json)
  | obj (kvs : List (List Nat × Json))

/-- Skip JSON whitespace bytes (space, tab, LF, CR). -/
def skipWs : List Nat → List Nat
  | [] => []
  | b :: rest => if b = 32 ∨ b = 9 ∨ b = 10 ∨ b = 13 then skipWs rest else b :: rest

/-- Value of an ASCII hex digit byte. -/
def hexVal (b : Nat) : Option Nat :=
  if 48 ≤ b ∧ b ≤ 57 then some (b - 48)
  else if 97 ≤ b ∧ b ≤ 102 then some (b - 87)
  else if 65 ≤ b ∧ b ≤ 70 then some (b - 55)
  else none

/-- UTF-8 encoding of a scalar value, used for \uXXXX escapes. -/
def utf8Encode (n : Nat) : List Nat :=
  if n < 128 then [n]
  else if n < 2048 then [192 + n / 64, 128 + n % 64]
  else if n < 65536 then [224 + n / 4096, 128 + (n / 64) % 64, 128 + n % 64]
  else [240 + n / 262144, 128 + (n / 4096) % 64, 128 + (n / 64) % 64, 128 + n % 64]

/-- Parse a JSON string body (after the opening quote, byte 34), returning
the content bytes and the remaining input.  Escapes are handled as in
serde_json; surrogate escapes are rejected.  Unescaped control bytes are
rejected. -/
def parseStringBytes : List Nat → Option (List Nat × List Nat)
  | 34 :: rest => some ([], rest)
  | 92 :: 117 :: h1 :: h2 :: h3 :: h4 :: rest => do
      let v1 ← hexVal h1
      let v2 ← hexVal h2
      let v3 ← hexVal h3
      let v4 ← hexVal h4
      let n := ((v1 * 16 + v2) * 16 + v3) * 16 + v4
      if 55296 ≤ n ∧ n ≤ 57343 then none
      else do
        let (s, r) ← parseStringBytes rest
        some (utf8Encode n ++ s, r)
  | 92 :: esc :: rest => do
      let bs ← (match esc with
        | 34 => some [34]
        | 92 => some [92]
        | 47 => some [47]
        | 98 => some [8]
        | 102 => some [12]
        | 110 => some [10]
        | 114 => some [13]
        | 116 => some [9]
        | _ => none)
      let (s, r) ← parseStringBytes rest
      some (bs ++ s, r)
  | b :: rest =>
      if b < 32 then none
      else do
        let (s, r) ← parseStringBytes rest
        some (b :: s, r)
  | [] => none

/-- Take leading ASCII digit bytes. -/
def takeDigits : List Nat → List Nat × List Nat
  | b :: rest =>
      if 48 ≤ b ∧ b ≤ 57 then
        let (d, r) := takeDigits rest
        (b :: d, r)
      else ([], b :: rest)
  | [] => ([], [])

/-- Numeric value of a digit-byte list. -/
def digitsToNat (ds : List Nat) : Nat :=
  ds.foldl (fun a b => a * 10 + (b - 48)) 0

/-- Parse a JSON number.  Integers representable in i64/u64 become
`intNum`; anything with a fraction/exponent part or out of that range
becomes `floatNum` (as serde_json falls back to f64 there). -/
def parseNumberBytes (bytes : List Nat) : Option (Json × List Nat) := do
  let (neg, r0) := match bytes with
    | 45 :: r => (true, r)
    | _ => (false, bytes)
  let (ds, r1) := takeDigits r0
  if ds = [] then none
  else if 2 ≤ ds.length ∧ ds.headI = 48 then none
  else do
    let (hasFrac, r2) ← (match r1 with
      | 46 :: r =>
          let (fd, rr) := takeDigits r
          if fd = [] then none else some (true, rr)
      | _ => some (false, r1))
    let (hasExp, r3) ← (match r2 with
      | b :: r =>
          if b = 101 ∨ b = 69 then
            let rSigned := match r with
              | s :: rr => if s = 43 ∨ s = 45 then rr else s :: rr
              | [] => []
            let (ed, rr) := takeDigits rSigned
            if ed = [] then none else some (true, rr)
          else some (false, b :: r)
      | [] => some (false, r2))
    let v : Int := if neg then -(digitsToNat ds : Int) else (digitsToNat ds : Int)
    if hasFrac ∨ hasExp then some (.floatNum, r3)
    else if v < -(2 ^ 63) ∨ (2 ^ 64 : Int) ≤ v then some (.floatNum, r3)
    else some (.intNum v, r3)

mutual

/-- Parse one JSON value (fuel-indexed recursion; `jsonParse` supplies
ample fuel). -/
def parseJsonVal : Nat → List Nat → Option (Json × List Nat)
  | 0, _ => none
  | fuel + 1, bytes =>
    match skipWs bytes with
    | 110 :: 117 :: 108 :: 108 :: r => some (.null, r)
    | 116 :: 114 :: 117 :: 101 :: r => some (.bool true, r)
    | 102 :: 97 :: 108 :: 115 :: 101 :: r => some (.bool false, r)
    | 34 :: r => (parseStringBytes r).map (fun p => (.str p.1, p.2))
    | 91 :: r =>
        (match skipWs r with
          | 93 :: rr => some (.arr [], rr)
          | r2 => do
              let (xs, rr) ← parseJsonItems fuel r2
              some (.arr xs, rr))
    | 123 :: r =>
        (match skipWs r with
          | 125 :: rr => some (.obj [], rr)
          | r2 => do
              let (kvs, rr) ← parseJsonMembers fuel r2
              some (.obj kvs, rr))
    | b :: r =>
        if b = 45 ∨ (48 ≤ b ∧ b ≤ 57) then parseNumberBytes (b :: r) else none
    | [] => none

/-- Parse the items of a non-empty JSON array, up to the closing bracket. -/
def parseJsonItems : Nat → List Nat → Option (List Json × List Nat)
  | 0, _ => none
  | fuel + 1, bytes => do
    let (v, r) ← parseJsonVal fuel bytes
    match skipWs r with
    | 44 :: rr => do
        let (xs, r2) ← parseJsonItems fuel rr
        some (v :: xs, r2)
    | 93 :: rr => some ([v], rr)
    | _ => none

/-- Parse the members of a non-empty JSON object, up to the closing brace. -/
def parseJsonMembers : Nat → List Nat → Option (List (List Nat × Json) × List Nat)
  | 0, _ => none
  | fuel + 1, bytes =>
    match skipWs bytes with
    | 34 :: r => do
        let (k, r1) ← parseStringBytes r
        match skipWs r1 with
        | 58 :: r2 => do
            let (v, r3) ← parseJsonVal fuel r2
            match skipWs r3 with
            | 44 :: r4 => do
                let (kvs, r5) ← parseJsonMembers fuel r4
                some ((k, v) :: kvs, r5)
            | 125 :: r4 => some ([(k, v)], r4)
            | _ => none
        | _ => none
    | _ => none

end

/-- Model of `serde_json::from_slice::<Value>`: parse a complete JSON
document, rejecting trailing non-whitespace input. -/
def jsonParse (bytes : List Nat) : Option Json := do
  let (v, r) ← parseJsonVal (2 * bytes.length + 4) bytes
  if skipWs r = [] then some v else none

/-- Last-wins association lookup: serde_json object maps keep the last
occurrence of a duplicated key. -/
def lookupLast (kvs : List (List Nat × Json)) (key : List Nat) : Option Json :=
  kvs.foldl (fun acc kv => if kv.1 = key then some kv.2 else acc) none

/-- Model of `Value::index` (`value[key]`): `Null` when the value is not
an object or the key is absent. -/
def jsonIndex (j : Json) (key : List Nat) : Json :=
  match j with
  | .obj kvs => (lookupLast kvs key).getD .null
  | _ => .null

/-- Model of `Value::as_u64`: defined exactly on integers in u64 range. -/
def Json.as_u64 : Json → Option Nat
  | .intNum n => if 0 ≤ n then some n.toNat else none
  | _ => none

/-- Model of `Value::as_str`. -/
def Json.as_str : Json → Option (List Nat)
  | .str s => some s
  | _ => none

/-- Model of `Value::as_u64` composed with `Value::get`-style access used
for the optional numeric task params (`as_u64` after lookup). -/
def Json.lookupKey (j : Json) (key : List Nat) : Option Json :=
  match j with
  | .obj kvs => lookupLast kvs key
  | _ => none

/-- Model of `Value::as_i64`: defined exactly on integers in i64 range. -/
def Json.as_i64 : Json → Option Int
  | .intNum n => if -(2 ^ 63) ≤ n ∧ n < 2 ^ 63 then some n else none
  | _ => none

/-- Model of `Value::as_f64`: any JSON number has an f64 view.  The float
value itself is not tracked (it never influences control flow). -/
def Json.as_f64 : Json → Option Unit
  | .intNum _ => some ()
  | .floatNum => some ()
  | _ => none

/-! ## base64url decoding (`URL_SAFE_NO_PAD` engine)

The engine rejects padding and non-alphabet characters, rejects inputs of
length ≡ 1 (mod 4), and rejects non-zero trailing bits. -/

/-- 6-bit value of a base64url alphabet character. -/
def b64Val (c : Char) : Option Nat :=
  if 'A' ≤ c ∧ c ≤ 'Z' then some (c.toNat - 65)
  else if 'a' ≤ c ∧ c ≤ 'z' then some (c.toNat - 97 + 26)
  else if '0' ≤ c ∧ c ≤ '9' then some (c.toNat - 48 + 52)
  else if c = '-' then some 62
  else if c = '_' then some 63
  else none

/-- Reassemble decoded 6-bit groups into bytes; a trailing group of one
character is invalid, and trailing bits must be zero. -/
def b64Chunks : List Nat → Option (List Nat)
  | [] => some []
  | [_] => none
  | [a, b] => if b % 16 = 0 then some [a * 4 + b / 16] else none
  | [a, b, c] =>
      if c % 4 = 0 then some [a * 4 + b / 16, (b % 16) * 16 + c / 4] else none
  | a :: b :: c :: d :: rest => do
      let tail ← b64Chunks rest
      some ((a * 4 + b / 16) :: ((b % 16) * 16 + c / 4) :: ((c % 4) * 64 + d) :: tail)

/-- Model of `general_purpose::URL_SAFE_NO_PAD.decode`. -/
def base64UrlDecode (cs : List Char) : Option (List Nat) := do
  let vals ← cs.mapM b64Val
  b64Chunks vals

/-! ## `src/device/mod.rs`: errors and token expiry -/

/-- The `DeviceError` enum of `src/device/mod.rs`. -/
inductive DeviceError where
  | initError (msg : String)
  | verifyError (msg : String)
  | codeExpired
  | deviceDisabled
  | networkError (msg : String)
  | heartbeatError (msg : String)
  | refreshError (msg : String)
  | tokenParseError (msg : String)
deriving DecidableEq

/-- Key bytes of the JWT `exp` claim. -/
def expKey : List Nat := [101, 120, 112]

/-- Model of `str::split('.')` collected into a vector: split a character
list at every dot, keeping empty segments. -/
def splitDots : List Char → List (List Char)
  | [] => [[]]
  | c :: rest =>
      if c = '.' then [] :: splitDots rest
      else
        match splitDots rest with
        | s :: ss => (c :: s) :: ss
        | [] => [[c]]

/-- `DeviceManager::get_token_expiry`: split the token on dots, require
exactly three segments, base64url-decode the payload, parse it as JSON and
read `exp` via `payload_json["exp"].as_u64()`. -/
def get_token_expiry (token : String) : Except DeviceError Nat :=
  match splitDots token.data with
  | [_, payloadB64, _] =>
      match base64UrlDecode payloadB64 with
      | none => .error (.tokenParseError "无法解码令牌")
      | some payload =>
          match jsonParse payload with
          | none => .error (.tokenParseError "无法解析令牌内容")
          | some payloadJson =>
              match (jsonIndex payloadJson expKey).as_u64 with
              | none => .error (.tokenParseError "令牌中没有过期时间字段")
              | some exp => .ok exp
  | _ => .error (.tokenParseError "无效的JWT格式")

/-- `DeviceManager::should_refresh_token`.  `now` (seconds since the Unix
epoch) is passed explicitly; the u64 addition `now + threshold_seconds`
wraps modulo 2^64 as in a release build. -/
def should_refresh_token (token : String) (now threshold_seconds : Nat) :
    Except DeviceError Bool :=
  match get_token_expiry token with
  | .error e => .error e
  | .ok expiry => .ok (decide (expiry ≤ (now + threshold_seconds) % 2 ^ 64))

/-! ## `DeviceManager::verify_device` and the registration polling loop -/

/-- Body of the 200 response of `GET /api/nodes/verify/{user_code}`. -/
structure DeviceVerifyResponse where
  node_id : String
  access_token : String
  refresh_token : String
deriving DecidableEq

/-- Outcome of one verify HTTP exchange, as `verify_device` observes it:
a transport error, a 200 with a body that does or does not deserialize,
or a non-200 status. -/
inductive VerifyHttp where
  | sendErr (e : String)
  | okBody (parse : Option DeviceVerifyResponse)
  | gone
  | forbidden
  | otherStatus (code : Nat)
deriving DecidableEq

/-- `DeviceManager::verify_device`: map the HTTP outcome to a result,
distinguishing `StatusCode::GONE` and `StatusCode::FORBIDDEN`. -/
def verify_device : VerifyHttp → Except DeviceError DeviceVerifyResponse
  | .sendErr e => .error (.networkError e)
  | .okBody (some r) => .ok r
  | .okBody none => .error (.verifyError "invalid response body")
  | .gone => .error .codeExpired
  | .forbidden => .error .deviceDisabled
  | .otherStatus code =>
      .error (.verifyError s!"Device verification failed: {code}")

/-- Final outcome of the verification polling loop in `main`. -/
inductive RegOutcome where
  | verified (r : DeviceVerifyResponse)
  | timeout
deriving DecidableEq

/-- The polling loop of `main` (`while attempts < max_attempts`): poll
`verify_device`; on success stop; on any error count one attempt, sleep
and continue.  `responses i` is the HTTP outcome of the i-th poll.
Returns the number of polls performed and the outcome. -/
def pollAux (responses : Nat → VerifyHttp) : Nat → Nat → Nat × RegOutcome
  | 0, _ => (0, .timeout)
  | fuel + 1, i =>
    match verify_device (responses i) with
    | .ok r => (1, .verified r)
    | .error _ =>
        let p := pollAux responses fuel (i + 1)
        (p.1 + 1, p.2)

/-- `max_attempts` in `main` is the i64 quotient
`(expires_at - now).num_seconds() / DEVICE_VERIFY_POLL_INTERVAL`; a
non-positive budget means the loop body never runs and the flow times
out. -/
def registration_poll (responses : Nat → VerifyHttp) (maxAttempts : Int) :
    Nat × RegOutcome :=
  pollAux responses maxAttempts.toNat 0

/-! ## `src/stable_diffusion/mod.rs`: the `text_to_image` retry loop -/

/-- `TextToImageParams` with the extraction-time casts applied (`as u32`
wraps modulo 2^32; the f32 value of `cfg_scale` never influences control
flow and is not tracked). -/
structure TextToImageParams where
  prompt : List Nat
  negative_prompt : Option (List Nat)
  width : Option Nat
  height : Option Nat
  steps : Option Nat
  cfg_scale : Option Unit
  seed : Option Int

/-- `ImageResponse` of the generation endpoint. -/
structure ImageResponse where
  images : List String
  parameters : Json
  info : String

/-- What one attempt of the generation HTTP call can observe: a transport
error on send, a `response.text()` failure (propagated immediately by
`?`), a non-success status with its body text, a 200 whose body fails to
parse, or a parsed `ImageResponse`. -/
inductive SDResponse where
  | sendErr (e : String)
  | bodyReadErr (e : String)
  | httpErr (status : Nat) (body : String)
  | parseErr (e : String)
  | parsed (resp : ImageResponse)

def MAX_RETRIES : Nat := 5

def INITIAL_RETRY_DELAY_MS : Nat := 1000

/-- The transient-failure body signature written with ASCII quotes in the
source. -/
def noneTypeSignature : String :=
  String.singleton (Char.ofNat 39) ++ "NoneType" ++ String.singleton (Char.ofNat 39)
    ++ " object"

/-- Whether `needle` is a prefix of `haystack` (character lists). -/
def charsPrefix : List Char → List Char → Bool
  | [], _ => true
  | _ :: _, [] => false
  | a :: as, b :: bs => a = b && charsPrefix as bs

/-- Whether `haystack` contains `needle` as a contiguous substring
(model of `str::contains` for literal patterns). -/
def charsContains : List Char → List Char → Bool
  | [], needle => charsPrefix needle []
  | c :: rest, needle => charsPrefix needle (c :: rest) || charsContains rest needle

/-- The body-based part of the retry classifier of `text_to_image`. -/
def retryableBody (body : String) : Bool :=
  charsContains body.data noneTypeSignature.data
    || charsContains body.data "CUDA out of memory".data
    || charsContains body.data "expected scalar type".data

/-- `StatusCode::is_server_error`. -/
def is_server_error (status : Nat) : Bool :=
  500 ≤ status && status ≤ 599

/-- The error text built for a non-success generation response. -/
def httpErrMsg (status : Nat) (body : String) : String :=
  s!"Stable Diffusion API request failed: HTTP {status}: {body}"

/-- The error an attempt with the given outcome produces (used both for
`last_error` and for the returned error). -/
def sdErrorMessage : SDResponse → String
  | .sendErr e => "Request failed: " ++ e
  | .bodyReadErr e => e
  | .httpErr status body => httpErrMsg status body
  | .parseErr e => "Failed to parse response: " ++ e
  | .parsed _ => ""

/-- The classifier of `text_to_image` restricted to attempts that raise
an error: send errors, parse errors and retryable HTTP statuses are
retried, other HTTP errors are fatal. -/
def attemptRaisesRetryable : SDResponse → Bool
  | .sendErr _ => true
  | .httpErr status body => retryableBody body || is_server_error status
  | .parseErr _ => true
  | .bodyReadErr _ => false
  | .parsed _ => false

/-- Attempt outcomes the classifier declares fatal: a non-retryable HTTP
error, or a body-read failure propagated by `?`. -/
def attemptFatal : SDResponse → Bool
  | .httpErr status body => !(retryableBody body || is_server_error status)
  | .bodyReadErr _ => true
  | _ => false

/-- The `for retry in 0..MAX_RETRIES` loop of `text_to_image`.  `rem` is
the number of iterations left including the current one (`rem = 0` after
the loop: return the saved `last_error`); `retry` is the loop index, and
the iteration is the last one exactly when `rem` becomes 0.  Returns how
many times the HTTP operation was invoked, with the result. -/
def t2iAux (respond : Nat → SDResponse) :
    Nat → Nat → Option String → Nat × Except String ImageResponse
  | 0, _, lastError =>
      (0, .error (lastError.getD
        "Failed to connect to Stable Diffusion API after 5 retries"))
  | rem + 1, retry, _lastError =>
    let notLast : Bool := rem != 0
    match respond retry with
    | .sendErr e =>
        if notLast then
          let p := t2iAux respond rem (retry + 1) (some ("Request failed: " ++ e))
          (p.1 + 1, p.2)
        else (1, .error ("Request failed: " ++ e))
    | .bodyReadErr e => (1, .error e)
    | .httpErr status body =>
        let retryError := retryableBody body || is_server_error status
        if retryError && notLast then
          let p := t2iAux respond rem (retry + 1) (some (httpErrMsg status body))
          (p.1 + 1, p.2)
        else (1, .error (httpErrMsg status body))
    | .parseErr e =>
        if notLast then
          let p := t2iAux respond rem (retry + 1)
            (some ("Failed to parse response: " ++ e))
          (p.1 + 1, p.2)
        else (1, .error ("Failed to parse response: " ++ e))
    | .parsed resp =>
        if resp.images.isEmpty && notLast then
          let p := t2iAux respond rem (retry + 1)
            (some "Stable Diffusion API returned empty images array")
          (p.1 + 1, p.2)
        else (1, .ok resp)

/-- `StableDiffusion::text_to_image`: run the bounded retry loop.
`respond i` is what attempt `i` observes from the backend. -/
def text_to_image (_params : TextToImageParams) (respond : Nat → SDResponse) :
    Nat × Except String ImageResponse :=
  t2iAux respond MAX_RETRIES 0 none

/-- `StableDiffusion::base64_to_image_url`. -/
def base64_to_image_url (data : String) : String :=
  "data:image/png;base64," ++ data

/-! ## `src/task/mod.rs`: task processing -/

/-- `TaskMessage` (the Job): `params` is a free-form JSON value. -/
structure TaskMessage where
  task_id : String
  node_id : String
  params : Json

/-- `TaskResult` (the JobResult). -/
structure TaskResult where
  task_id : String
  status : String
  duration_sec : Rat
  result_urls : Option (List String)
  error_stack : Option String
  node_id : Option String
  retries : Nat
deriving DecidableEq

/-- `TaskProcessorConfig`. -/
structure TaskProcessorConfig where
  nats_server : String
  sd_url : String
  node_id : String

/-- Byte representation of an ASCII key string. -/
def keyBytes (s : String) : List Nat :=
  s.data.map Char.toNat

/-- `TaskProcessor::execute_task`: extract the prompt (required) and the
optional generation params from `task.params`, then call
`text_to_image`, mapping the returned base64 images to data URLs.
Returns the number of backend invocations made, with the result. -/
def execute_task (task : TaskMessage) (respond : Nat → SDResponse) :
    Nat × Except String (List String) :=
  match task.params.lookupKey (keyBytes "prompt") with
  | none => (0, .error "Missing required parameter: prompt")
  | some v =>
      match v.as_str with
      | none => (0, .error "Prompt must be a string")
      | some prompt =>
          let params : TextToImageParams :=
            { prompt := prompt
              width := (task.params.lookupKey (keyBytes "width")).bind
                (fun w => (Json.as_u64 w).map (· % 2 ^ 32))
              height := (task.params.lookupKey (keyBytes "height")).bind
                (fun w => (Json.as_u64 w).map (· % 2 ^ 32))
              steps := (task.params.lookupKey (keyBytes "steps")).bind
                (fun w => (Json.as_u64 w).map (· % 2 ^ 32))
              cfg_scale := (task.params.lookupKey (keyBytes "cfg_scale")).bind
                Json.as_f64
              seed := (task.params.lookupKey (keyBytes "seed")).bind Json.as_i64
              negative_prompt :=
                (task.params.lookupKey (keyBytes "negative_prompt")).bind
                  Json.as_str }
          let r := text_to_image params respond
          match r.2 with
          | .ok resp => (r.1, .ok (resp.images.map base64_to_image_url))
          | .error e => (r.1, .error e)

/-- Environment of one `process_task` call: the serde parse outcome of
the message payload, the backend behavior, the UUID `Uuid::new_v4` would
generate, the elapsed wall-clock time `start_time.elapsed()` observes at
result-build time (seconds), and whether the JetStream publish calls
succeed. -/
structure ProcEnv where
  parseResult : Except String TaskMessage
  sdRespond : Nat → SDResponse
  freshId : String
  elapsed : Rat
  publishOk : Bool

/-- Observable outcome of one `process_task` call: the results actually
published, how many backend invocations happened, and the returned
`Result`. -/
structure ProcOut where
  published : List TaskResult
  backendCalls : Nat
  ret : Except String Unit

/-- `TaskProcessor::publish_result`: publish to `results.{task_id}`;
returns the published-message list and the call's own result. -/
def publish_result (e : ProcEnv) (r : TaskResult) :
    List TaskResult × Except String Unit :=
  if e.publishOk then ([r], .ok ()) else ([], .error "publish failed")

/-- `TaskProcessor::process_task`.  Every branch builds exactly one
`TaskResult` and publishes it; note the hard-coded `duration_sec := 3`
in the success branch of the source (the measured elapsed time is used
only in the failure branch). -/
def process_task (cfg : TaskProcessorConfig) (e : ProcEnv) : ProcOut :=
  match e.parseResult with
  | .ok task_message =>
      if task_message.node_id ≠ cfg.node_id then
        let r : TaskResult :=
          { task_id := task_message.task_id
            status := "failed"
            duration_sec := 0
            result_urls := none
            error_stack := some "Invalid node ID"
            node_id := some cfg.node_id
            retries := 0 }
        let p := publish_result e r
        ⟨p.1, 0, p.2⟩
      else
        let ex := execute_task task_message e.sdRespond
        match ex.2 with
        | .ok result_urls =>
            let r : TaskResult :=
              { task_id := task_message.task_id
                status := "completed"
                duration_sec := 3
                result_urls := some result_urls
                error_stack := none
                node_id := some cfg.node_id
                retries := 0 }
            let p := publish_result e r
            ⟨p.1, ex.1, p.2⟩
        | .error msg =>
            let r : TaskResult :=
              { task_id := task_message.task_id
                status := "failed"
                duration_sec := e.elapsed
                result_urls := none
                error_stack := some msg
                node_id := some cfg.node_id
                retries := 0 }
            let p := publish_result e r
            ⟨p.1, ex.1, p.2⟩
  | .error pe =>
      let r : TaskResult :=
        { task_id := e.freshId
          status := "failed"
          duration_sec := 0
          result_urls := none
          error_stack := some ("Failed to parse task message: " ++ pe)
          node_id := some cfg.node_id
          retries := 0 }
      let p := publish_result e r
      ⟨p.1, 0, p.2⟩

/-- Events of handling one received stream message, in order. -/
inductive StreamEvent where
  | published (r : TaskResult)
  | procError (e : String)
  | acked
deriving DecidableEq

/-- The per-message step of the consuming loop in `start_processing`:
run `process_task`, log (but do not propagate) its error, then ack. -/
def handle_message (cfg : TaskProcessorConfig) (e : ProcEnv) : List StreamEvent :=
  let o := process_task cfg e
  o.published.map StreamEvent.published
    ++ (match o.ret with
        | .error m => [.procError m]
        | .ok _ => [])
    ++ [.acked]

/-! ## `start_processing`: the reconnection logic -/

/-- Outcome of one reconnection attempt (get stream, then get or create
the consumer, then open the message stream). -/
inductive ReconnectAttempt where
  | gotAll
  | streamErr
  | consumerErr
  | messagesErr
deriving DecidableEq

/-- Waits and attempts observable during a reconnection episode. -/
inductive RAction where
  | settleWait (secs : Nat)
  | tryOpen (attempt : Nat)
  | backoffWait (secs : Nat)
deriving DecidableEq

/-- What the outer loop does after the episode. -/
inductive PostDisconnect where
  | resumed (attempt : Nat)
  | failedTerminal
deriving DecidableEq

/-- The `for attempt in 1..=retry_count` reconnection loop: try to
re-open; on success break (no backoff), otherwise sleep `2^attempt`
seconds and try again.  Returns the action trace and the successful
attempt index, if any. -/
def reconnectAux (outcome : Nat → ReconnectAttempt) :
    Nat → Nat → List RAction × Option Nat
  | 0, _ => ([], none)
  | rem + 1, attempt =>
    match outcome attempt with
    | .gotAll => ([.tryOpen attempt], some attempt)
    | _ =>
        let p := reconnectAux outcome rem (attempt + 1)
        (.tryOpen attempt :: .backoffWait (2 ^ attempt) :: p.1, p.2)

/-- The disconnect-handling segment of `start_processing`: a fixed 5 s
settle delay, then up to `retry_count = 3` reconnection attempts. -/
def handle_disconnect (outcome : Nat → ReconnectAttempt) :
    List RAction × PostDisconnect :=
  let p := reconnectAux outcome 3 1
  (.settleWait 5 :: p.1,
   match p.2 with
   | some k => .resumed k
   | none => .failedTerminal)

/-- Consumer states: consuming under the `generation`-th subscription
handle, or terminally failed. -/
inductive CState where
  | consuming (generation : Nat)
  | failed
deriving DecidableEq

/-- Transition of the consumer after a message-receive error while
consuming under subscription `g`: run the reconnection episode; on
success resume consuming with a fresh subscription handle, otherwise
break out of the processing loop for good. -/
def step_on_stream_error (g : Nat) (outcome : Nat → ReconnectAttempt) :
    CState × List RAction :=
  match handle_disconnect outcome with
  | (tr, .resumed _) => (.consuming (g + 1), tr)
  | (tr, .failedTerminal) => (.failed, tr)

/-- Whether job processing is still running in a state. -/
def processingActive : CState → Bool
  | .consuming _ => true
  | .failed => false

/-! ## `src/config/mod.rs`: `NodeConfig` and the setters -/

/-- The persisted configuration record. -/
structure NodeConfig where
  device_code : Option String
  user_code : Option String
  access_token : Option String
  refresh_token : Option String
  node_id : Option String
  base_url : String
deriving DecidableEq

/-- `ConfigManager`: the in-memory record plus the on-disk document (the
content of `config.json`, when it has been written). -/
structure ConfigManager where
  config : NodeConfig
  stored : Option NodeConfig
deriving DecidableEq

/-- `ConfigManager::save`: serialize the whole record and write it. -/
def ConfigManager.save (cm : ConfigManager) : ConfigManager :=
  { cm with stored := some cm.config }

/-- `ConfigManager::set_device_code`. -/
def ConfigManager.set_device_code (cm : ConfigManager) (code : String) :
    ConfigManager :=
  ConfigManager.save { cm with config := { cm.config with device_code := some code } }

/-- `ConfigManager::set_user_code`. -/
def ConfigManager.set_user_code (cm : ConfigManager) (code : String) :
    ConfigManager :=
  ConfigManager.save { cm with config := { cm.config with user_code := some code } }

/-- `ConfigManager::set_tokens`. -/
def ConfigManager.set_tokens (cm : ConfigManager)
    (access_token refresh_token : String) : ConfigManager :=
  ConfigManager.save
    { cm with
      config :=
        { cm.config with
          access_token := some access_token
          refresh_token := some refresh_token } }

/-- `ConfigManager::set_node_id`. -/
def ConfigManager.set_node_id (cm : ConfigManager) (id : String) :
    ConfigManager :=
  ConfigManager.save { cm with config := { cm.config with node_id := some id } }

/-- `ConfigManager::update_access_token`. -/
def ConfigManager.update_access_token (cm : ConfigManager)
    (access_token : String) : ConfigManager :=
  ConfigManager.save
    { cm with config := { cm.config with access_token := some access_token } }

/-! ## Concrete instances used as test inputs -/

/-- A processor configured as node "n1". -/
def cfgNode1 : TaskProcessorConfig :=
  { nats_server := "nats://localhost:4222", sd_url := "http://localhost:7860",
    node_id := "n1" }

/-- Job params with a string prompt. -/
def jobParamsPrompt : Json :=
  .obj [(keyBytes "prompt", .str (keyBytes "a cat"))]

/-- A backend that immediately yields one image. -/
def sdOneImage : Nat → SDResponse :=
  fun _ => .parsed { images := ["img"], parameters := .null, info := "" }

/-- Environment: well-addressed job, backend succeeds, ten seconds of
wall-clock time elapse, publishing works. -/
def envDuration : ProcEnv :=
  { parseResult := .ok { task_id := "t1", node_id := "n1", params := jobParamsPrompt }
    sdRespond := sdOneImage
    freshId := "f"
    elapsed := 10
    publishOk := true }

/-- Environment: the message payload does not parse as a Job. -/
def envParseFail : ProcEnv :=
  { parseResult := .error "bad json"
    sdRespond := sdOneImage
    freshId := "fresh-uuid"
    elapsed := 0
    publishOk := true }

/-- A parsed generation response with no images. -/
def emptyImageResponse : ImageResponse :=
  { images := [], parameters := .null, info := "" }

/-- A backend whose every response parses but carries no images. -/
def sdAlwaysEmpty : Nat → SDResponse :=
  fun _ => .parsed emptyImageResponse

/-- Default generation parameters. -/
def pDefault : TextToImageParams :=
  { prompt := [], negative_prompt := none, width := none, height := none,
    steps := none, cfg_scale := none, seed := none }

/-- A backend answering HTTP 500 on every attempt. -/
def sdAllServerErr : Nat → SDResponse :=
  fun _ => .httpErr 500 "boom"

/-- A backend answering a fatal HTTP 404 on every attempt. -/
def sdFatalFirst : Nat → SDResponse :=
  fun _ => .httpErr 404 "nope"

/-- Credential returned by a successful verify. -/
def cred0 : DeviceVerifyResponse :=
  { node_id := "node", access_token := "at", refresh_token := "rt" }

/-- Verify endpoint: Gone on the first poll, success afterwards. -/
def verifyGoneThenOk : Nat → VerifyHttp :=
  fun i => if i = 0 then .gone else .okBody (some cred0)

/-- Reconnection attempts that always fail at the stream step. -/
def reconAllFail : Nat → ReconnectAttempt :=
  fun _ => .streamErr

/-- Reconnection attempts that succeed immediately. -/
def reconOkFirst : Nat → ReconnectAttempt :=
  fun _ => .gotAll

/-! ## Theorems -/

/-- C5: for every well-formed three-dot-segment token whose base64url
decoded payload carries a u64 `exp` claim, `should_refresh_token` returns
exactly `exp ≤ now + threshold`, and in particular `true` at the boundary
`exp = now + threshold` (under the assumption that the u64 sum does not
wrap, which holds for all realistic clock values). -/
theorem should_refresh_token_iff_within_threshold
    (token : String) (now threshold exp : Nat)
    (hexp : get_token_expiry token = .ok exp)
    (hadd : now + threshold < 2 ^ 64) :
    should_refresh_token token now threshold
        = .ok (decide (exp ≤ now + threshold))
      ∧ (exp = now + threshold →
          should_refresh_token token now threshold = .ok true) := by
  have h1 : should_refresh_token token now threshold
      = .ok (decide (exp ≤ (now + threshold) % 2 ^ 64)) := by
    unfold should_refresh_token
    rw [hexp]
  rw [Nat.mod_eq_of_lt hadd] at h1
  refine ⟨h1, fun he => ?_⟩
  rw [h1]
  simp [he]

/-- Witness for C5 on a concrete token with `exp = 100` at the boundary
`now + threshold = 100`. -/
theorem should_refresh_token_iff_within_threshold_witness :
    get_token_expiry "h.eyJleHAiOjEwMH0.s" = .ok 100
      ∧ should_refresh_token "h.eyJleHAiOjEwMH0.s" 50 50 = .ok true :=
  ⟨by rfl,
   (should_refresh_token_iff_within_threshold "h.eyJleHAiOjEwMH0.s" 50 50 100
      (by rfl) (by norm_num)).2 rfl⟩

/-- C6: for every malformed token — wrong number of dot segments, payload
segment that fails base64url decoding, decoded payload that is not valid
JSON, or a payload without a u64 `exp` field (including non-object
payloads, which index to `Null`) — `should_refresh_token` returns a
`TokenParseError`; being a total Lean function, it cannot panic. -/
theorem should_refresh_token_malformed_parse_error
    (token : String) (now threshold : Nat)
    (h : (splitDots token.data).length ≠ 3
       ∨ (∃ a p s, splitDots token.data = [a, p, s] ∧ base64UrlDecode p = none)
       ∨ (∃ a p s bytes, splitDots token.data = [a, p, s]
            ∧ base64UrlDecode p = some bytes ∧ jsonParse bytes = none)
       ∨ (∃ a p s bytes j, splitDots token.data = [a, p, s]
            ∧ base64UrlDecode p = some bytes ∧ jsonParse bytes = some j
            ∧ (jsonIndex j expKey).as_u64 = none)) :
    ∃ msg, should_refresh_token token now threshold
        = .error (DeviceError.tokenParseError msg) := by
  have key : ∃ msg, get_token_expiry token
      = .error (DeviceError.tokenParseError msg) := by
    rcases h with h | ⟨a, p, s, hsp, hb⟩ | ⟨a, p, s, bytes, hsp, hb, hj⟩
      | ⟨a, p, s, bytes, j, hsp, hb, hj, he⟩
    · refine ⟨"无效的JWT格式", ?_⟩
      unfold get_token_expiry
      rcases hls : splitDots token.data with _ | ⟨x, _ | ⟨y, _ | ⟨z, _ | ⟨w, t⟩⟩⟩⟩
      · rfl
      · rfl
      · rfl
      · exact absurd (by rw [hls]; rfl) h
      · rfl
    · exact ⟨"无法解码令牌", by simp [get_token_expiry, hsp, hb]⟩
    · exact ⟨"无法解析令牌内容", by simp [get_token_expiry, hsp, hb, hj]⟩
    · exact ⟨"令牌中没有过期时间字段", by simp [get_token_expiry, hsp, hb, hj, he]⟩
  obtain ⟨msg, hm⟩ := key
  refine ⟨msg, ?_⟩
  unfold should_refresh_token
  rw [hm]

/-- Witness for C6 on a one-segment token. -/
theorem should_refresh_token_malformed_parse_error_witness :
    ∃ msg, should_refresh_token "abc" 0 0
        = .error (DeviceError.tokenParseError msg) :=
  should_refresh_token_malformed_parse_error "abc" 0 0 (Or.inl (by decide))

/-- C10: each single-field setter updates exactly its own field of the
`NodeConfig`, `set_tokens` updates exactly the two token fields, and
every setter persists the full record after the change. -/
theorem config_setters_frame (cm : ConfigManager) (v a r : String) :
    ((cm.set_device_code v).config.device_code = some v
      ∧ (cm.set_device_code v).config.user_code = cm.config.user_code
      ∧ (cm.set_device_code v).config.access_token = cm.config.access_token
      ∧ (cm.set_device_code v).config.refresh_token = cm.config.refresh_token
      ∧ (cm.set_device_code v).config.node_id = cm.config.node_id
      ∧ (cm.set_device_code v).config.base_url = cm.config.base_url
      ∧ (cm.set_device_code v).stored = some (cm.set_device_code v).config)
    ∧ ((cm.set_user_code v).config.user_code = some v
      ∧ (cm.set_user_code v).config.device_code = cm.config.device_code
      ∧ (cm.set_user_code v).config.access_token = cm.config.access_token
      ∧ (cm.set_user_code v).config.refresh_token = cm.config.refresh_token
      ∧ (cm.set_user_code v).config.node_id = cm.config.node_id
      ∧ (cm.set_user_code v).config.base_url = cm.config.base_url
      ∧ (cm.set_user_code v).stored = some (cm.set_user_code v).config)
    ∧ ((cm.set_node_id v).config.node_id = some v
      ∧ (cm.set_node_id v).config.device_code = cm.config.device_code
      ∧ (cm.set_node_id v).config.user_code = cm.config.user_code
      ∧ (cm.set_node_id v).config.access_token = cm.config.access_token
      ∧ (cm.set_node_id v).config.refresh_token = cm.config.refresh_token
      ∧ (cm.set_node_id v).config.base_url = cm.config.base_url
      ∧ (cm.set_node_id v).stored = some (cm.set_node_id v).config)
    ∧ ((cm.update_access_token v).config.access_token = some v
      ∧ (cm.update_access_token v).config.device_code = cm.config.device_code
      ∧ (cm.update_access_token v).config.user_code = cm.config.user_code
      ∧ (cm.update_access_token v).config.refresh_token = cm.config.refresh_token
      ∧ (cm.update_access_token v).config.node_id = cm.config.node_id
      ∧ (cm.update_access_token v).config.base_url = cm.config.base_url
      ∧ (cm.update_access_token v).stored = some (cm.update_access_token v).config)
    ∧ ((cm.set_tokens a r).config.access_token = some a
      ∧ (cm.set_tokens a r).config.refresh_token = some r
      ∧ (cm.set_tokens a r).config.device_code = cm.config.device_code
      ∧ (cm.set_tokens a r).config.user_code = cm.config.user_code
      ∧ (cm.set_tokens a r).config.node_id = cm.config.node_id
      ∧ (cm.set_tokens a r).config.base_url = cm.config.base_url
      ∧ (cm.set_tokens a r).stored = some (cm.set_tokens a r).config) :=
  ⟨⟨rfl, rfl, rfl, rfl, rfl, rfl, rfl⟩,
   ⟨rfl, rfl, rfl, rfl, rfl, rfl, rfl⟩,
   ⟨rfl, rfl, rfl, rfl, rfl, rfl, rfl⟩,
   ⟨rfl, rfl, rfl, rfl, rfl, rfl, rfl⟩,
   ⟨rfl, rfl, rfl, rfl, rfl, rfl, rfl⟩⟩

/-- C2 (code bug evidence): a job whose compute succeeds after ten
seconds of measured wall-clock time is published as `completed` with
`duration_sec = 3` — the hard-coded constant of the success branch, not
the measured duration. -/
theorem process_task_success_duration_hardcoded :
    envDuration.elapsed = 10
      ∧ (process_task cfgNode1 envDuration).published.map TaskResult.status
          = ["completed"]
      ∧ (process_task cfgNode1 envDuration).published.map TaskResult.duration_sec
          = [3] :=
  ⟨rfl, rfl, rfl⟩

/-- C8: for every message payload that fails to parse as a Job, exactly
one JobResult is published (when the result channel accepts it); it is
`failed`, carries the freshly generated UUID as `task_id`, and no
compute-backend call is made. -/
theorem process_task_parse_failure_fresh_id
    (cfg : TaskProcessorConfig) (e : ProcEnv) (pe : String)
    (hp : e.parseResult = .error pe) (hpub : e.publishOk = true) :
    (process_task cfg e).published =
        [{ task_id := e.freshId
           status := "failed"
           duration_sec := 0
           result_urls := none
           error_stack := some ("Failed to parse task message: " ++ pe)
           node_id := some cfg.node_id
           retries := 0 }]
      ∧ (process_task cfg e).backendCalls = 0 := by
  constructor <;> simp [process_task, hp, publish_result, hpub]

/-- C1: for every received message (when the result channel accepts the
publish), the handling step publishes exactly one JobResult, whose status
is `completed` or `failed`, before the acknowledgement, and
`process_task` returns `Ok` — parse failures, wrong node ids and compute
failures are all captured into a failed result rather than propagated. -/
theorem process_task_one_result_then_ack
    (cfg : TaskProcessorConfig) (e : ProcEnv) (hpub : e.publishOk = true) :
    (process_task cfg e).published.length = 1
      ∧ (∀ r ∈ (process_task cfg e).published,
          r.status = "completed" ∨ r.status = "failed")
      ∧ (process_task cfg e).ret = .ok ()
      ∧ handle_message cfg e
          = (process_task cfg e).published.map StreamEvent.published
              ++ [StreamEvent.acked] := by
  have hpr : ∀ r, publish_result e r = ([r], Except.ok ()) := fun r => by
    simp [publish_result, hpub]
  refine ⟨?_, ?_, ?_, ?_⟩ <;>
  · cases hp : e.parseResult with
    | ok tm =>
        by_cases hn : tm.node_id = cfg.node_id
        · cases hex : (execute_task tm e.sdRespond).2 with
          | ok urls => simp [process_task, handle_message, hp, hn, hex, hpr]
          | error m => simp [process_task, handle_message, hp, hn, hex, hpr]
        · simp [process_task, handle_message, hp, hn, hpr]
    | error pe => simp [process_task, handle_message, hp, hpr]

/-- Witness for C1 on a concrete well-addressed job. -/
theorem process_task_one_result_then_ack_witness :
    (process_task cfgNode1 envDuration).published.length = 1
      ∧ (process_task cfgNode1 envDuration).ret = .ok () :=
  ⟨(process_task_one_result_then_ack cfgNode1 envDuration rfl).1,
   (process_task_one_result_then_ack cfgNode1 envDuration rfl).2.2.1⟩

/-- Step equations of the `text_to_image` loop, one per attempt outcome
and position (last vs non-last iteration), used by the loop lemmas. -/
theorem t2iAux_one_sendErr (respond : Nat → SDResponse) (k : Nat)
    (le : Option String) (e : String) (h : respond k = .sendErr e) :
    t2iAux respond 1 k le = (1, .error ("Request failed: " ++ e)) := by
  conv_lhs => rw [t2iAux]
  simp [h]

theorem t2iAux_succ2_sendErr (respond : Nat → SDResponse) (m k : Nat)
    (le : Option String) (e : String) (h : respond k = .sendErr e) :
    t2iAux respond (m + 2) k le
      = ((t2iAux respond (m + 1) (k + 1) (some ("Request failed: " ++ e))).1 + 1,
         (t2iAux respond (m + 1) (k + 1) (some ("Request failed: " ++ e))).2) := by
  conv_lhs => rw [t2iAux]
  simp [h]

theorem t2iAux_bodyReadErr (respond : Nat → SDResponse) (rem k : Nat)
    (le : Option String) (e : String) (h : respond k = .bodyReadErr e) :
    t2iAux respond (rem + 1) k le = (1, .error e) := by
  conv_lhs => rw [t2iAux]
  simp [h]

theorem t2iAux_one_httpErr (respond : Nat → SDResponse) (k : Nat)
    (le : Option String) (status : Nat) (body : String)
    (h : respond k = .httpErr status body) :
    t2iAux respond 1 k le = (1, .error (httpErrMsg status body)) := by
  conv_lhs => rw [t2iAux]
  simp [h]

theorem t2iAux_httpErr_fatal (respond : Nat → SDResponse) (rem k : Nat)
    (le : Option String) (status : Nat) (body : String)
    (h : respond k = .httpErr status body)
    (hf : (retryableBody body || is_server_error status) = false) :
    t2iAux respond (rem + 1) k le = (1, .error (httpErrMsg status body)) := by
  conv_lhs => rw [t2iAux]
  simp [h, hf]

theorem t2iAux_succ2_httpErr_retry (respond : Nat → SDResponse) (m k : Nat)
    (le : Option String) (status : Nat) (body : String)
    (h : respond k = .httpErr status body)
    (hr : (retryableBody body || is_server_error status) = true) :
    t2iAux respond (m + 2) k le
      = ((t2iAux respond (m + 1) (k + 1) (some (httpErrMsg status body))).1 + 1,
         (t2iAux respond (m + 1) (k + 1) (some (httpErrMsg status body))).2) := by
  conv_lhs => rw [t2iAux]
  simp [h, hr]

theorem t2iAux_one_parseErr (respond : Nat → SDResponse) (k : Nat)
    (le : Option String) (e : String) (h : respond k = .parseErr e) :
    t2iAux respond 1 k le = (1, .error ("Failed to parse response: " ++ e)) := by
  conv_lhs => rw [t2iAux]
  simp [h]

theorem t2iAux_succ2_parseErr (respond : Nat → SDResponse) (m k : Nat)
    (le : Option String) (e : String) (h : respond k = .parseErr e) :
    t2iAux respond (m + 2) k le
      = ((t2iAux respond (m + 1) (k + 1)
            (some ("Failed to parse response: " ++ e))).1 + 1,
         (t2iAux respond (m + 1) (k + 1)
            (some ("Failed to parse response: " ++ e))).2) := by
  conv_lhs => rw [t2iAux]
  simp [h]

theorem t2iAux_parsed_nonempty (respond : Nat → SDResponse) (rem k : Nat)
    (le : Option String) (resp : ImageResponse)
    (h : respond k = .parsed resp) (hne : resp.images.isEmpty = false) :
    t2iAux respond (rem + 1) k le = (1, .ok resp) := by
  conv_lhs => rw [t2iAux]
  simp [h, hne]

theorem t2iAux_one_parsed (respond : Nat → SDResponse) (k : Nat)
    (le : Option String) (resp : ImageResponse) (h : respond k = .parsed resp) :
    t2iAux respond 1 k le = (1, .ok resp) := by
  conv_lhs => rw [t2iAux]
  simp [h]

theorem t2iAux_succ2_parsed_empty (respond : Nat → SDResponse) (m k : Nat)
    (le : Option String) (resp : ImageResponse)
    (h : respond k = .parsed resp) (he : resp.images.isEmpty = true) :
    t2iAux respond (m + 2) k le
      = ((t2iAux respond (m + 1) (k + 1)
            (some "Stable Diffusion API returned empty images array")).1 + 1,
         (t2iAux respond (m + 1) (k + 1)
            (some "Stable Diffusion API returned empty images array")).2) := by
  conv_lhs => rw [t2iAux]
  simp [h, he]

/-- Helper for C7: when every remaining attempt raises a retryable error,
the loop runs all `rem` remaining iterations and returns the error of the
last one. -/

theorem t2iAux_all_retryable (respond : Nat → SDResponse) :
    ∀ rem k le, rem ≠ 0 →
      (∀ i, k ≤ i → i < k + rem → attemptRaisesRetryable (respond i) = true) →
      t2iAux respond rem k le
        = (rem, .error (sdErrorMessage (respond (k + rem - 1)))) := by
  intro rem
  induction rem with
  | zero => intro k le h _; exact absurd rfl h
  | succ n ih =>
      intro k le _ hall
      have hk : attemptRaisesRetryable (respond k) = true := hall k le_rfl (by omega)
      cases n with
      | zero =>
          cases hr : respond k with
          | sendErr e =>
              rw [t2iAux_one_sendErr respond k le e hr]
              simp [hr, sdErrorMessage]
          | bodyReadErr e =>
              rw [hr] at hk; simp [attemptRaisesRetryable] at hk
          | httpErr status body =>
              rw [t2iAux_one_httpErr respond k le status body hr]
              simp [hr, sdErrorMessage]
          | parseErr e =>
              rw [t2iAux_one_parseErr respond k le e hr]
              simp [hr, sdErrorMessage]
          | parsed resp =>
              rw [hr] at hk; simp [attemptRaisesRetryable] at hk
      | succ m =>
          have hih : ∀ le2, t2iAux respond (m + 1) (k + 1) le2
              = (m + 1, Except.error (sdErrorMessage (respond (k + 1 + (m + 1) - 1)))) :=
            fun le2 => ih (k + 1) le2 (Nat.succ_ne_zero m)
              (fun i hi1 hi2 => hall i (by omega) (by omega))
          have hidx : k + 1 + (m + 1) - 1 = k + (m + 1 + 1) - 1 := by omega
          cases hr : respond k with
          | sendErr e =>
              rw [t2iAux_succ2_sendErr respond m k le e hr, hih, hidx]
          | bodyReadErr e =>
              rw [hr] at hk; simp [attemptRaisesRetryable] at hk
          | httpErr status body =>
              have hb : (retryableBody body || is_server_error status) = true := by
                rw [hr] at hk; exact hk
              rw [t2iAux_succ2_httpErr_retry respond m k le status body hr hb, hih, hidx]
          | parseErr e =>
              rw [t2iAux_succ2_parseErr respond m k le e hr, hih, hidx]
          | parsed resp =>
              rw [hr] at hk; simp [attemptRaisesRetryable] at hk

/-- C7: with the budget `MAX_RETRIES = 5`, if every attempt raises a
retryable error the operation is invoked exactly five times and the
returned error is the last attempt's error; if the first attempt raises a
fatal (non-retryable) error the operation is invoked exactly once and
that error is returned. -/
theorem text_to_image_retry_counts (params : TextToImageParams)
    (respond : Nat → SDResponse) :
    ((∀ i, i < MAX_RETRIES → attemptRaisesRetryable (respond i) = true) →
        text_to_image params respond
          = (MAX_RETRIES, .error (sdErrorMessage (respond 4))))
      ∧ (attemptFatal (respond 0) = true →
          text_to_image params respond
            = (1, .error (sdErrorMessage (respond 0)))) := by
  constructor
  · intro hall
    have h := t2iAux_all_retryable respond MAX_RETRIES 0 none (by decide)
      (fun i hi1 hi2 => hall i (by simpa using hi2))
    simpa [text_to_image, MAX_RETRIES] using h
  · intro hfatal
    cases hr : respond 0 with
    | sendErr e => rw [hr] at hfatal; simp [attemptFatal] at hfatal
    | parseErr e => rw [hr] at hfatal; simp [attemptFatal] at hfatal
    | parsed resp => rw [hr] at hfatal; simp [attemptFatal] at hfatal
    | bodyReadErr e =>
        have hstep := t2iAux_bodyReadErr respond 4 0 none e hr
        rw [text_to_image]
        exact hstep
    | httpErr status body =>
        have hb : (retryableBody body || is_server_error status) = false := by
          rw [hr] at hfatal
          simpa [attemptFatal] using hfatal
        have hstep := t2iAux_httpErr_fatal respond 4 0 none status body hr hb
        rw [text_to_image]
        exact hstep

/-- Witness for C7: five HTTP 500 responses exhaust the budget; a fatal
HTTP 404 stops after one invocation. -/
theorem text_to_image_retry_counts_witness :
    text_to_image pDefault sdAllServerErr
        = (MAX_RETRIES, .error (sdErrorMessage (sdAllServerErr 4)))
      ∧ text_to_image pDefault sdFatalFirst
        = (1, .error (sdErrorMessage (sdFatalFirst 0))) :=
  ⟨(text_to_image_retry_counts pDefault sdAllServerErr).1 (fun _ _ => rfl),
   (text_to_image_retry_counts pDefault sdFatalFirst).2 rfl⟩

/-- Counterexample for C4: a backend whose every response parses with an
empty `images` array makes `text_to_image` return success with an empty
image list (the last attempt returns `Ok` instead of retrying or
failing). -/
theorem text_to_image_empty_success_cex :
    (text_to_image pDefault sdAlwaysEmpty).2 = .ok emptyImageResponse
      ∧ emptyImageResponse.images = [] :=
  ⟨rfl, rfl⟩

/-- Helper for C4 (amended): a successful return with an empty image list
forces the loop to have used all remaining attempts. -/
theorem t2iAux_ok_empty_used_all (respond : Nat → SDResponse) :
    ∀ rem k le n resp, t2iAux respond rem k le = (n, .ok resp) →
      resp.images = [] → n = rem := by
  intro rem
  induction rem with
  | zero =>
      intro k le n resp h hempty
      simp [t2iAux] at h
  | succ m ih =>
      intro k le n resp h hempty
      cases hr : respond k with
      | sendErr e =>
          cases m with
          | zero =>
              rw [t2iAux_one_sendErr respond k le e hr] at h
              simp at h
          | succ m2 =>
              rw [t2iAux_succ2_sendErr respond m2 k le e hr] at h
              rw [Prod.mk.injEq] at h
              obtain ⟨h1, h2⟩ := h
              have hp : t2iAux respond (m2 + 1) (k + 1)
                  (some ("Request failed: " ++ e))
                  = ((t2iAux respond (m2 + 1) (k + 1)
                      (some ("Request failed: " ++ e))).1, Except.ok resp) := by
                rw [← h2]
              have := ih (k + 1) _ _ _ hp hempty
              omega
      | bodyReadErr e =>
          rw [t2iAux_bodyReadErr respond m k le e hr] at h
          simp at h
      | httpErr status body =>
          by_cases hb : (retryableBody body || is_server_error status) = true
          · cases m with
            | zero =>
                rw [t2iAux_one_httpErr respond k le status body hr] at h
                simp at h
            | succ m2 =>
                rw [t2iAux_succ2_httpErr_retry respond m2 k le status body hr hb] at h
                rw [Prod.mk.injEq] at h
                obtain ⟨h1, h2⟩ := h
                have hp : t2iAux respond (m2 + 1) (k + 1)
                    (some (httpErrMsg status body))
                    = ((t2iAux respond (m2 + 1) (k + 1)
                        (some (httpErrMsg status body))).1, Except.ok resp) := by
                  rw [← h2]
                have := ih (k + 1) _ _ _ hp hempty
                omega
          · have hb2 : (retryableBody body || is_server_error status) = false :=
              eq_false_of_ne_true hb
            rw [t2iAux_httpErr_fatal respond m k le status body hr hb2] at h
            simp at h
      | parseErr e =>
          cases m with
          | zero =>
              rw [t2iAux_one_parseErr respond k le e hr] at h
              simp at h
          | succ m2 =>
              rw [t2iAux_succ2_parseErr respond m2 k le e hr] at h
              rw [Prod.mk.injEq] at h
              obtain ⟨h1, h2⟩ := h
              have hp : t2iAux respond (m2 + 1) (k + 1)
                  (some ("Failed to parse response: " ++ e))
                  = ((t2iAux respond (m2 + 1) (k + 1)
                      (some ("Failed to parse response: " ++ e))).1,
                     Except.ok resp) := by
                rw [← h2]
              have := ih (k + 1) _ _ _ hp hempty
              omega
      | parsed resp2 =>
          by_cases he : resp2.images.isEmpty = true
          · cases m with
            | zero =>
                rw [t2iAux_one_parsed respond k le resp2 hr] at h
                rw [Prod.mk.injEq] at h
                omega
            | succ m2 =>
                rw [t2iAux_succ2_parsed_empty respond m2 k le resp2 hr he] at h
                rw [Prod.mk.injEq] at h
                obtain ⟨h1, h2⟩ := h
                have hp : t2iAux respond (m2 + 1) (k + 1)
                    (some "Stable Diffusion API returned empty images array")
                    = ((t2iAux respond (m2 + 1) (k + 1)
                        (some "Stable Diffusion API returned empty images array")).1,
                       Except.ok resp) := by
                  rw [← h2]
                have := ih (k + 1) _ _ _ hp hempty
                omega
          · have he2 : resp2.images.isEmpty = false := eq_false_of_ne_true he
            rw [t2iAux_parsed_nonempty respond m k le resp2 hr he2] at h
            rw [Prod.mk.injEq] at h
            obtain ⟨h1, h2⟩ := h
            injection h2 with h3
            subst h3
            rw [hempty] at he2
            simp at he2

/-- C4 (amended): whenever `text_to_image` returns success, the image
list is non-empty — except when the successful response arrives on the
final (fifth) attempt, where an empty image list is returned as success;
equivalently, a successful return with an empty list implies all
`MAX_RETRIES` attempts were used. -/
theorem text_to_image_success_nonempty_unless_final
    (params : TextToImageParams) (respond : Nat → SDResponse)
    (n : Nat) (resp : ImageResponse)
    (h : text_to_image params respond = (n, .ok resp))
    (hempty : resp.images = []) : n = MAX_RETRIES :=
  t2iAux_ok_empty_used_all respond MAX_RETRIES 0 none n resp h hempty

/-- Witness for C4 (amended) on the always-empty backend. -/
theorem text_to_image_success_nonempty_unless_final_witness :
    (5 : Nat) = MAX_RETRIES :=
  text_to_image_success_nonempty_unless_final pDefault sdAlwaysEmpty 5
    emptyImageResponse rfl rfl

/-- Counterexample for C3: with an HTTP Gone answer to the first poll and
a budget of three attempts, the flow polls a second time and even
completes verification — Gone (mapped to `CodeExpired`) is not terminal
in the polling loop of `main`. -/
theorem registration_poll_continues_after_gone_cex :
    verifyGoneThenOk 0 = .gone
      ∧ verify_device (verifyGoneThenOk 0) = .error DeviceError.codeExpired
      ∧ registration_poll verifyGoneThenOk 3 = (2, .verified cred0) :=
  ⟨rfl, rfl, rfl⟩

/-- C3 (amended): `verify_device` maps HTTP Gone to `CodeExpired` and
HTTP Forbidden to `DeviceDisabled`, but neither is terminal for the
registration flow: every verify error, these included, is counted as one
poll attempt and polling continues until success or exhaustion of the
attempt budget. -/
theorem verify_terminal_statuses_counted_as_attempts
    (responses : Nat → VerifyHttp) (fuel i : Nat) (e : DeviceError)
    (h : verify_device (responses i) = .error e) :
    verify_device VerifyHttp.gone = .error DeviceError.codeExpired
      ∧ verify_device VerifyHttp.forbidden = .error DeviceError.deviceDisabled
      ∧ pollAux responses (fuel + 1) i
          = ((pollAux responses fuel (i + 1)).1 + 1,
             (pollAux responses fuel (i + 1)).2) := by
  refine ⟨rfl, rfl, ?_⟩
  simp [pollAux, h]

/-- Witness for C3 (amended): after the Gone answer the loop recurses
into a further poll. -/
theorem verify_terminal_statuses_counted_as_attempts_witness :
    pollAux verifyGoneThenOk 3 0
        = ((pollAux verifyGoneThenOk 2 1).1 + 1,
           (pollAux verifyGoneThenOk 2 1).2) :=
  (verify_terminal_statuses_counted_as_attempts verifyGoneThenOk 2 0
      DeviceError.codeExpired rfl).2.2

/-- C9: after a message-receive error the consumer waits the fixed 5 s
settle delay and re-opens the stream/consumer/subscription up to three
times with backoff `2^attempt` between attempts; a success at attempt 1,
2 or 3 resumes consumption under a fresh subscription handle, and three
failures put the consumer into the terminal `failed` state, ending job
processing. -/
theorem stream_reconnection_behavior
    (outcome : Nat → ReconnectAttempt) (g : Nat) :
    (outcome 1 = .gotAll →
        handle_disconnect outcome
            = ([.settleWait 5, .tryOpen 1], .resumed 1)
          ∧ step_on_stream_error g outcome
              = (.consuming (g + 1), [.settleWait 5, .tryOpen 1]))
      ∧ (outcome 1 ≠ .gotAll → outcome 2 = .gotAll →
          handle_disconnect outcome
              = ([.settleWait 5, .tryOpen 1, .backoffWait 2, .tryOpen 2],
                 .resumed 2)
            ∧ step_on_stream_error g outcome
                = (.consuming (g + 1),
                   [.settleWait 5, .tryOpen 1, .backoffWait 2, .tryOpen 2]))
      ∧ (outcome 1 ≠ .gotAll → outcome 2 ≠ .gotAll → outcome 3 = .gotAll →
          handle_disconnect outcome
              = ([.settleWait 5, .tryOpen 1, .backoffWait 2, .tryOpen 2,
                  .backoffWait 4, .tryOpen 3], .resumed 3)
            ∧ step_on_stream_error g outcome
                = (.consuming (g + 1),
                   [.settleWait 5, .tryOpen 1, .backoffWait 2, .tryOpen 2,
                    .backoffWait 4, .tryOpen 3]))
      ∧ (outcome 1 ≠ .gotAll → outcome 2 ≠ .gotAll → outcome 3 ≠ .gotAll →
          handle_disconnect outcome
              = ([.settleWait 5, .tryOpen 1, .backoffWait 2, .tryOpen 2,
                  .backoffWait 4, .tryOpen 3, .backoffWait 8], .failedTerminal)
            ∧ (step_on_stream_error g outcome).1 = .failed
            ∧ processingActive (step_on_stream_error g outcome).1 = false) := by
  refine ⟨fun h1 => ?_, fun h1 h2 => ?_, fun h1 h2 h3 => ?_, fun h1 h2 h3 => ?_⟩
  · constructor <;>
      simp [handle_disconnect, reconnectAux, step_on_stream_error, h1]
  · cases hc1 : outcome 1 <;> simp [hc1] at h1 <;> constructor <;>
      simp [handle_disconnect, reconnectAux, step_on_stream_error, hc1, h2]
  · cases hc1 : outcome 1 <;> simp [hc1] at h1 <;>
      cases hc2 : outcome 2 <;> simp [hc2] at h2 <;> constructor <;>
      simp [handle_disconnect, reconnectAux, step_on_stream_error, hc1, hc2, h3]
  · cases hc1 : outcome 1 <;> simp [hc1] at h1 <;>
      cases hc2 : outcome 2 <;> simp [hc2] at h2 <;>
      cases hc3 : outcome 3 <;> simp [hc3] at h3 <;>
      refine ⟨?_, ?_, ?_⟩ <;>
      simp [handle_disconnect, reconnectAux, step_on_stream_error,
        processingActive, hc1, hc2, hc3]

/-- Witness for C9: an always-failing environment ends terminally, an
immediately-succeeding one resumes. -/
theorem stream_reconnection_behavior_witness :
    handle_disconnect reconAllFail
        = ([.settleWait 5, .tryOpen 1, .backoffWait 2, .tryOpen 2,
            .backoffWait 4, .tryOpen 3, .backoffWait 8], .failedTerminal)
      ∧ handle_disconnect reconOkFirst
          = ([.settleWait 5, .tryOpen 1], .resumed 1) :=
  ⟨((stream_reconnection_behavior reconAllFail 0).2.2.2 (by decide) (by decide)
      (by decide)).1,
   ((stream_reconnection_behavior reconOkFirst 0).1 rfl).1⟩

/-- Witness for C8 on a concrete unparseable payload. -/
theorem process_task_parse_failure_fresh_id_witness :
    (process_task cfgNode1 envParseFail).published =
        [{ task_id := envParseFail.freshId
           status := "failed"
           duration_sec := 0
           result_urls := none
           error_stack := some ("Failed to parse task message: " ++ "bad json")
           node_id := some cfgNode1.node_id
           retries := 0 }]
      ∧ (process_task cfgNode1 envParseFail).backendCalls = 0 :=
  process_task_parse_failure_fresh_id cfgNode1 envParseFail "bad json" rfl rfl

end Zkom
